import Mathlib

/-!
# LiquidCrystal_I2C: the HD44780-over-I2C-expander character LCD driver

A shallow embedding of `src/LiquidCrystal_I2C.h`.  Bytes (`uint8_t`) are natural
numbers, reduced `% 256` wherever a C value is converted to `uint8_t`.

The header contains the command / flag constants, the class layout and the two
inline members `write` and `command`.  The bodies of the remaining members live
in a translation unit that is not part of the sources at hand; those members are
modelled from the specification and are marked as such.
-/

namespace LiquidCrystal_I2C

/-! ## Constants of the header -/

-- commands
def LCD_CLEARDISPLAY : Nat := 0x01
def LCD_RETURNHOME : Nat := 0x02
def LCD_ENTRYMODESET : Nat := 0x04
def LCD_DISPLAYCONTROL : Nat := 0x08
def LCD_CURSORSHIFT : Nat := 0x10
def LCD_FUNCTIONSET : Nat := 0x20
def LCD_SETCGRAMADDR : Nat := 0x40
def LCD_SETDDRAMADDR : Nat := 0x80

-- flags for display entry mode
def LCD_ENTRYRIGHT : Nat := 0x00
def LCD_ENTRYLEFT : Nat := 0x02
def LCD_ENTRYSHIFTINCREMENT : Nat := 0x01
def LCD_ENTRYSHIFTDECREMENT : Nat := 0x00

-- flags for display on/off control
def LCD_DISPLAYON : Nat := 0x04
def LCD_DISPLAYOFF : Nat := 0x00
def LCD_CURSORON : Nat := 0x02
def LCD_CURSOROFF : Nat := 0x00
def LCD_BLINKON : Nat := 0x01
def LCD_BLINKOFF : Nat := 0x00

-- flags for display/cursor shift
def LCD_DISPLAYMOVE : Nat := 0x08
def LCD_CURSORMOVE : Nat := 0x00
def LCD_MOVERIGHT : Nat := 0x04
def LCD_MOVELEFT : Nat := 0x00

-- flags for function set
def LCD_8BITMODE : Nat := 0x10
def LCD_4BITMODE : Nat := 0x00
def LCD_2LINE : Nat := 0x08
def LCD_1LINE : Nat := 0x00
def LCD_5x10DOTS : Nat := 0x04
def LCD_5x8DOTS : Nat := 0x00

-- flags for backlight control
def LCD_BACKLIGHT : Nat := 0x08
def LCD_NOBACKLIGHT : Nat := 0x00

/-- Enable bit. -/
def En : Nat := 0b00000100
/-- Read/Write bit. -/
def Rw : Nat := 0b00000010
/-- Register select bit. -/
def Rs : Nat := 0b00000001

/-! ## Groupings of the constants, following the comment headings of the header -/

/-- The `// commands` block, in the order of the header. -/
def commands : List Nat :=
  [LCD_CLEARDISPLAY, LCD_RETURNHOME, LCD_ENTRYMODESET, LCD_DISPLAYCONTROL,
   LCD_CURSORSHIFT, LCD_FUNCTIONSET, LCD_SETCGRAMADDR, LCD_SETDDRAMADDR]

/-- The `// flags for display entry mode` block. -/
def entryModeFlags : List Nat :=
  [LCD_ENTRYRIGHT, LCD_ENTRYLEFT, LCD_ENTRYSHIFTINCREMENT, LCD_ENTRYSHIFTDECREMENT]

/-- The `// flags for display on/off control` block. -/
def displayControlFlags : List Nat :=
  [LCD_DISPLAYON, LCD_DISPLAYOFF, LCD_CURSORON, LCD_CURSOROFF, LCD_BLINKON, LCD_BLINKOFF]

/-- The `// flags for display/cursor shift` block. -/
def cursorShiftFlags : List Nat :=
  [LCD_DISPLAYMOVE, LCD_CURSORMOVE, LCD_MOVERIGHT, LCD_MOVELEFT]

/-- The `// flags for function set` block. -/
def functionSetFlags : List Nat :=
  [LCD_8BITMODE, LCD_4BITMODE, LCD_2LINE, LCD_1LINE, LCD_5x10DOTS, LCD_5x8DOTS]

/-- Every value obtainable by OR-ing together some of the given flag constants. -/
def flagCombinations (flags : List Nat) : List Nat :=
  flags.sublists.map (fun l => l.foldl Nat.lor 0)

/-- Each command paired with the flag block that belongs to it. -/
def flaggedCommands : List (Nat × List Nat) :=
  [(LCD_ENTRYMODESET, entryModeFlags), (LCD_DISPLAYCONTROL, displayControlFlags),
   (LCD_CURSORSHIFT, cursorShiftFlags), (LCD_FUNCTIONSET, functionSetFlags)]

/-! ## Data model -/

/-- Conversion of a C integer value to `uint8_t`, as happens for every argument
passed to a `uint8_t` parameter and every value stored in a `uint8_t` member. -/
def uint8_t (n : Nat) : Nat := n % 256

/-- One single-byte write transaction on the two-wire bus: the slave address and
the byte written. -/
structure Transaction where
  addr : Nat
  byte : Nat
  deriving DecidableEq, Repr

end LiquidCrystal_I2C

/-- The private members of `class LiquidCrystal_I2C`, in the order of the header.
`_wire` (a `TwoWire *` in the header) is the bus the driver writes to; it is
represented by the sequence of transactions the bus has received so far.
`waited_us` is not a member of the class: it accumulates the microseconds the
driver has spent in delays. -/
structure LiquidCrystal_I2C where
  _wire : List LiquidCrystal_I2C.Transaction
  _addr : Nat
  _displayfunction : Nat
  _displaycontrol : Nat
  _displaymode : Nat
  _cols : Nat
  _rows : Nat
  _charsize : Nat
  _backlightval : Nat
  waited_us : Nat
  deriving DecidableEq, Repr

namespace LiquidCrystal_I2C

/-! ## Members defined in the header

`send` is declared in the header and defined elsewhere, so the two inline members
take it as a parameter; `σ` is the state `send` acts on. -/

/-- The inline member `size_t write(uint8_t value)`, whose body is
`send(value, Rs); return 1;`.  The result pairs the state after the call with the
returned count. -/
def write {σ : Type} (sendFn : Nat → Nat → σ → σ) (value : Nat) (self : σ) : σ × Nat :=
  (sendFn (uint8_t value) Rs self, 1)

/-- The inline member `void command(uint8_t value)`, whose body is `send(value, 0);`. -/
def command {σ : Type} (sendFn : Nat → Nat → σ → σ) (value : Nat) (self : σ) : σ :=
  sendFn (uint8_t value) 0 self

/-- A stand-in for `send` that only records the `(value, mode)` arguments of each
call, in call order. -/
def recordSend (value mode : Nat) (calls : List (Nat × Nat)) : List (Nat × Nat) :=
  calls ++ [(value, mode)]

/-! ## Members declared in the header whose bodies are not in the sources -/

/-- Modelled from the spec: the timed waits of the driver (`delayMicroseconds` of the
platform is not part of the sources).  Only the stated minimum is
accumulated. -/
def delayMicroseconds (us : Nat) (self : LiquidCrystal_I2C) : LiquidCrystal_I2C :=
  { self with waited_us := self.waited_us + us }

/-- Modelled from the spec: the body of the constructor
`LiquidCrystal_I2C(lcd_addr, lcd_cols, lcd_rows, charsize)` is missing.  The spec
says the driver is "constructed with geometry and address, inert until `begin` is
called", with the backlight on by default; no bus is attached yet and the shadow
registers hold no value yet (zero here). -/
def construct (lcd_addr lcd_cols lcd_rows charsize : Nat) : LiquidCrystal_I2C :=
  { _wire := [], _addr := uint8_t lcd_addr, _displayfunction := 0, _displaycontrol := 0,
    _displaymode := 0, _cols := uint8_t lcd_cols, _rows := uint8_t lcd_rows,
    _charsize := uint8_t charsize, _backlightval := LCD_BACKLIGHT, waited_us := 0 }

/-- Modelled from the spec: the body of `expanderWrite(uint8_t)` is missing.  Spec
§4.1, emit byte: "write one byte B to the expander via the bus adapter (single-byte
transaction to `addr`). [...] The backlight bit is OR-ed in by the caller." -/
def expanderWrite (data : Nat) (self : LiquidCrystal_I2C) : LiquidCrystal_I2C :=
  { self with _wire := self._wire ++ [⟨self._addr, uint8_t data⟩] }

/-- Modelled from the spec: the body of `pulseEnable(uint8_t)` is missing.  Spec
§4.1, pulse Enable on value V: "emit V with the Enable bit forced high; wait ≥ 1 µs;
emit V with the Enable bit forced low; wait ≥ 50 µs for the command to settle." -/
def pulseEnable (data : Nat) (self : LiquidCrystal_I2C) : LiquidCrystal_I2C :=
  let self := expanderWrite (uint8_t data ||| En) self
  let self := delayMicroseconds 1 self
  let self := expanderWrite (uint8_t data &&& (0xFF ^^^ En)) self
  delayMicroseconds 50 self

/-- Modelled from the spec: the body of `write4bits(uint8_t)` is missing.  Spec §4.1,
write one nibble N: "let V = (N << 4) | backlight_bit | mode_bits where mode_bits
carries RS as set by the caller (RW is zero). Pulse Enable on V."  The header gives
`write4bits` a single `uint8_t` parameter, so the caller passes `(N << 4) | mode_bits`
and the backlight bit is OR-ed in here. -/
def write4bits (value : Nat) (self : LiquidCrystal_I2C) : LiquidCrystal_I2C :=
  pulseEnable (uint8_t value ||| self._backlightval) self

/-- Modelled from the spec: the body of `send(uint8_t, uint8_t)` is missing.  Spec
§4.2.1: "write the high nibble of V (with RS = M), then the low nibble of V (with
RS = M)." -/
def send (value mode : Nat) (self : LiquidCrystal_I2C) : LiquidCrystal_I2C :=
  let self := write4bits (((uint8_t value >>> 4) <<< 4) ||| uint8_t mode) self
  write4bits (((uint8_t value &&& 0x0F) <<< 4) ||| uint8_t mode) self

/-- Modelled from the spec: the body of `begin(TwoWire *connected_wire)` is missing.
Spec §4.2.2, steps 1 to 9, performed on the bus handed in. -/
def begin (connected_wire : List Transaction) (self : LiquidCrystal_I2C) : LiquidCrystal_I2C :=
  let self := { self with _wire := connected_wire }
  -- 1. displayfunction: 4-bit, 2-line if rows > 1, 5x10 if charsize == 5x10 and rows == 1
  let self := { self with _displayfunction := LCD_4BITMODE |||
    (if self._rows > 1 then LCD_2LINE else LCD_1LINE) |||
    (if self._charsize = LCD_5x10DOTS ∧ self._rows = 1 then LCD_5x10DOTS else LCD_5x8DOTS) }
  -- 2. wait >= 50 ms after power-on
  let self := delayMicroseconds 50000 self
  -- 3. assert backlight; emit a zero-data byte with the current backlight bit
  let self := { self with _backlightval := LCD_BACKLIGHT }
  let self := expanderWrite self._backlightval self
  -- 4. wake sequence, nibbles only, RS = 0
  let self := write4bits (0x03 <<< 4) self
  let self := delayMicroseconds 4500 self
  let self := write4bits (0x03 <<< 4) self
  let self := delayMicroseconds 150 self
  let self := write4bits (0x03 <<< 4) self
  let self := delayMicroseconds 150 self
  let self := write4bits (0x02 <<< 4) self
  -- 5. FUNCTION_SET | displayfunction
  let self := command send (LCD_FUNCTIONSET ||| self._displayfunction) self
  -- 6. display on, cursor off, blink off; DISPLAY_CONTROL | displaycontrol
  let self := { self with _displaycontrol := LCD_DISPLAYON ||| LCD_CURSOROFF ||| LCD_BLINKOFF }
  let self := command send (LCD_DISPLAYCONTROL ||| self._displaycontrol) self
  -- 7. CLEAR_DISPLAY; wait >= 2 ms
  let self := command send LCD_CLEARDISPLAY self
  let self := delayMicroseconds 2000 self
  -- 8. entry-left, no-shift; ENTRY_MODE_SET | displaymode
  let self := { self with _displaymode := LCD_ENTRYLEFT ||| LCD_ENTRYSHIFTDECREMENT }
  let self := command send (LCD_ENTRYMODESET ||| self._displaymode) self
  -- 9. RETURN_HOME; wait >= 2 ms
  let self := command send LCD_RETURNHOME self
  delayMicroseconds 2000 self

/-- Modelled from the spec: the body of `noDisplay()` is missing.  Spec §4.2.3: "Toggle
operations (display/cursor/blink on-off) flip the corresponding bit in `displaycontrol`
and re-send DISPLAY_CONTROL."  Each operation has a target state (spec §8, shadow
idempotence, and the scenario `display(); noDisplay(); display();` with payloads
`0x0C, 0x08, 0x0C`); for `noDisplay` it is off, so the display-on bit is cleared. -/
def noDisplay (self : LiquidCrystal_I2C) : LiquidCrystal_I2C :=
  let self := { self with
    _displaycontrol := uint8_t self._displaycontrol &&& (0xFF ^^^ LCD_DISPLAYON) }
  command send (LCD_DISPLAYCONTROL ||| self._displaycontrol) self

/-- Modelled from the spec: the body of `display()` is missing.  Spec §4.2.3, as for
`noDisplay`, with target state on: the display-on bit is set. -/
def display (self : LiquidCrystal_I2C) : LiquidCrystal_I2C :=
  let self := { self with _displaycontrol := uint8_t self._displaycontrol ||| LCD_DISPLAYON }
  command send (LCD_DISPLAYCONTROL ||| self._displaycontrol) self

/-- Modelled from the spec: the table inside the missing body of `setCursor`, "a
fixed table of DDRAM row base addresses `{0x00, 0x40, 0x14, 0x54}`, supporting up to
four rows". -/
def row_base : List Nat := [0x00, 0x40, 0x14, 0x54]

/-- Modelled from the spec: the body of `setCursor(uint8_t col, uint8_t row)` is
missing.  Spec §4.2.3: "The cursor address is `row_base[min(row, rows-1)] + col`.
`col` is not clamped [...]. Send SET_DDRAM_ADDR | address."  An index outside the
four-entry table has no defined result. -/
def setCursor (col row : Nat) (self : LiquidCrystal_I2C) : Option LiquidCrystal_I2C :=
  match row_base[min (uint8_t row) (self._rows - 1)]? with
  | none => none
  | some base => some (command send (LCD_SETDDRAMADDR ||| (base + uint8_t col)) self)

/-! ## Theorems -/

/-! ### What the modelled operations record on the bus -/

/-- The literal unfolding of `send`: four transactions are appended and 102 µs are
spent waiting; every other member is left alone. -/
theorem send_eq (value mode : Nat) (d : LiquidCrystal_I2C) :
    send value mode d =
      { d with
        _wire := d._wire ++
          [⟨d._addr, uint8_t (uint8_t (uint8_t (((uint8_t value >>> 4) <<< 4) ||| uint8_t mode)
              ||| d._backlightval) ||| En)⟩,
           ⟨d._addr, uint8_t (uint8_t (uint8_t (((uint8_t value >>> 4) <<< 4) ||| uint8_t mode)
              ||| d._backlightval) &&& (0xFF ^^^ En))⟩,
           ⟨d._addr, uint8_t (uint8_t (uint8_t (((uint8_t value &&& 0x0F) <<< 4) ||| uint8_t mode)
              ||| d._backlightval) ||| En)⟩,
           ⟨d._addr, uint8_t (uint8_t (uint8_t (((uint8_t value &&& 0x0F) <<< 4) ||| uint8_t mode)
              ||| d._backlightval) &&& (0xFF ^^^ En))⟩],
        waited_us := d.waited_us + 1 + 50 + 1 + 50 } := by
  simp [send, write4bits, pulseEnable, expanderWrite, delayMicroseconds]

/-- The literal unfolding of `write4bits`: two transactions and 51 µs of waiting. -/
theorem write4bits_eq (value : Nat) (d : LiquidCrystal_I2C) :
    write4bits value d =
      { d with
        _wire := d._wire ++
          [⟨d._addr, uint8_t (uint8_t (uint8_t value ||| d._backlightval) ||| En)⟩,
           ⟨d._addr, uint8_t (uint8_t (uint8_t value ||| d._backlightval) &&& (0xFF ^^^ En))⟩],
        waited_us := d.waited_us + 1 + 50 } := by
  simp [write4bits, pulseEnable, expanderWrite, delayMicroseconds]

set_option maxRecDepth 100000 in
/-- On bytes, modes and backlight values of the driver, the conversions to `uint8_t`
inside `send` lose nothing. -/
theorem send_bytes_normal :
    ∀ b ∈ [LCD_BACKLIGHT, LCD_NOBACKLIGHT], ∀ m ∈ [0, Rs], ∀ v < 256,
      uint8_t (uint8_t (uint8_t (((uint8_t v >>> 4) <<< 4) ||| uint8_t m) ||| b) ||| En)
        = ((v >>> 4) <<< 4) ||| b ||| m ||| En ∧
      uint8_t (uint8_t (uint8_t (((uint8_t v >>> 4) <<< 4) ||| uint8_t m) ||| b)
          &&& (0xFF ^^^ En))
        = ((v >>> 4) <<< 4) ||| b ||| m ∧
      uint8_t (uint8_t (uint8_t (((uint8_t v &&& 0x0F) <<< 4) ||| uint8_t m) ||| b) ||| En)
        = ((v &&& 0x0F) <<< 4) ||| b ||| m ||| En ∧
      uint8_t (uint8_t (uint8_t (((uint8_t v &&& 0x0F) <<< 4) ||| uint8_t m) ||| b)
          &&& (0xFF ^^^ En))
        = ((v &&& 0x0F) <<< 4) ||| b ||| m := by
  decide

set_option maxRecDepth 100000 in
/-- Bit-level reading of the four bytes of one send. -/
theorem send_bytes_bits :
    ∀ b ∈ [LCD_BACKLIGHT, LCD_NOBACKLIGHT], ∀ m ∈ [0, Rs], ∀ v < 256,
      ∀ hl ∈ [(((v >>> 4) <<< 4) ||| b ||| m, v >>> 4),
          (((v &&& 0x0F) <<< 4) ||| b ||| m, v &&& 0x0F)],
        ((hl.1 ||| En) < 256 ∧ (hl.1 ||| En) >>> 4 = hl.2 ∧ (hl.1 ||| En).testBit 2 = true ∧
          (hl.1 ||| En) &&& Rs = m ∧ (hl.1 ||| En) &&& Rw = 0 ∧
          (hl.1 ||| En) &&& LCD_BACKLIGHT = b) ∧
        (hl.1 < 256 ∧ hl.1 >>> 4 = hl.2 ∧ hl.1.testBit 2 = false ∧
          hl.1 &&& Rs = m ∧ hl.1 &&& Rw = 0 ∧ hl.1 &&& LCD_BACKLIGHT = b) := by
  decide

/-- What `send` does for an 8-bit value, a mode in `{0, Rs}` and a backlight value in
`{LCD_BACKLIGHT, LCD_NOBACKLIGHT}`, with the conversions removed. -/
theorem send_spec (value mode : Nat) (d : LiquidCrystal_I2C) (hv : value < 256)
    (hm : mode = 0 ∨ mode = Rs)
    (hb : d._backlightval = LCD_BACKLIGHT ∨ d._backlightval = LCD_NOBACKLIGHT) :
    send value mode d =
      { d with
        _wire := d._wire ++
          [⟨d._addr, ((value >>> 4) <<< 4) ||| d._backlightval ||| mode ||| En⟩,
           ⟨d._addr, ((value >>> 4) <<< 4) ||| d._backlightval ||| mode⟩,
           ⟨d._addr, ((value &&& 0x0F) <<< 4) ||| d._backlightval ||| mode ||| En⟩,
           ⟨d._addr, ((value &&& 0x0F) <<< 4) ||| d._backlightval ||| mode⟩],
        waited_us := d.waited_us + 1 + 50 + 1 + 50 } := by
  have hb' : d._backlightval ∈ [LCD_BACKLIGHT, LCD_NOBACKLIGHT] := by simpa using hb
  have hm' : mode ∈ [0, Rs] := by simpa using hm
  obtain ⟨h1, h2, h3, h4⟩ := send_bytes_normal _ hb' _ hm' value hv
  rw [send_eq, h1, h2, h3, h4]

set_option maxRecDepth 100000 in
/-- Bit-level reading of the two bytes of one nibble write, and of the bare control
byte. -/
theorem nibble_bytes_bits :
    ∀ b ∈ [LCD_BACKLIGHT, LCD_NOBACKLIGHT], ∀ m ∈ [0, Rs], ∀ n < 16,
      (uint8_t (uint8_t (uint8_t ((n <<< 4) ||| m) ||| b) ||| En) = (n <<< 4) ||| b ||| m ||| En ∧
        uint8_t (uint8_t (uint8_t ((n <<< 4) ||| m) ||| b) &&& (0xFF ^^^ En))
          = ((n <<< 4) ||| b ||| m) &&& (0xFF ^^^ En)) ∧
      (((n <<< 4) ||| b ||| m ||| En) >>> 4 = n ∧
        ((n <<< 4) ||| b ||| m ||| En).testBit 3 = decide (b = LCD_BACKLIGHT) ∧
        ((n <<< 4) ||| b ||| m ||| En).testBit 2 = true ∧
        ((n <<< 4) ||| b ||| m ||| En).testBit 1 = false ∧
        ((n <<< 4) ||| b ||| m ||| En).testBit 0 = decide (m = Rs)) ∧
      ((((n <<< 4) ||| b ||| m) &&& (0xFF ^^^ En)) >>> 4 = n ∧
        (((n <<< 4) ||| b ||| m) &&& (0xFF ^^^ En)).testBit 3 = decide (b = LCD_BACKLIGHT) ∧
        (((n <<< 4) ||| b ||| m) &&& (0xFF ^^^ En)).testBit 2 = false ∧
        (((n <<< 4) ||| b ||| m) &&& (0xFF ^^^ En)).testBit 1 = false ∧
        (((n <<< 4) ||| b ||| m) &&& (0xFF ^^^ En)).testBit 0 = decide (m = Rs)) ∧
      (uint8_t b = b ∧ b.testBit 3 = decide (b = LCD_BACKLIGHT) ∧ b.testBit 1 = false) := by
  decide

/-- The state `begin` leaves, member by member: the bus record grows by the backlight
byte, the eight bytes of the four wake nibbles and the twenty bytes of the five
commands; the waits add up to 59.514 ms. -/
theorem begin_eq (w : List Transaction) (d : LiquidCrystal_I2C) :
    begin w d =
      { d with
        _wire := w ++
          [⟨d._addr, 0x08⟩,
           ⟨d._addr, 0x3C⟩, ⟨d._addr, 0x38⟩, ⟨d._addr, 0x3C⟩, ⟨d._addr, 0x38⟩,
           ⟨d._addr, 0x3C⟩, ⟨d._addr, 0x38⟩, ⟨d._addr, 0x2C⟩, ⟨d._addr, 0x28⟩,
           ⟨d._addr, 0x2C⟩, ⟨d._addr, 0x28⟩,
           ⟨d._addr, (((if d._rows > 1 then LCD_2LINE else 0) |||
              (if d._charsize = LCD_5x10DOTS ∧ d._rows = 1 then LCD_5x10DOTS else 0)) <<< 4)
                ||| LCD_BACKLIGHT ||| En⟩,
           ⟨d._addr, (((if d._rows > 1 then LCD_2LINE else 0) |||
              (if d._charsize = LCD_5x10DOTS ∧ d._rows = 1 then LCD_5x10DOTS else 0)) <<< 4)
                ||| LCD_BACKLIGHT⟩,
           ⟨d._addr, 0x0C⟩, ⟨d._addr, 0x08⟩, ⟨d._addr, 0xCC⟩, ⟨d._addr, 0xC8⟩,
           ⟨d._addr, 0x0C⟩, ⟨d._addr, 0x08⟩, ⟨d._addr, 0x1C⟩, ⟨d._addr, 0x18⟩,
           ⟨d._addr, 0x0C⟩, ⟨d._addr, 0x08⟩, ⟨d._addr, 0x6C⟩, ⟨d._addr, 0x68⟩,
           ⟨d._addr, 0x0C⟩, ⟨d._addr, 0x08⟩, ⟨d._addr, 0x2C⟩, ⟨d._addr, 0x28⟩],
        _displayfunction := (if d._rows > 1 then LCD_2LINE else 0) |||
          (if d._charsize = LCD_5x10DOTS ∧ d._rows = 1 then LCD_5x10DOTS else 0),
        _displaycontrol := LCD_DISPLAYON,
        _displaymode := LCD_ENTRYLEFT,
        _backlightval := LCD_BACKLIGHT,
        waited_us := d.waited_us + 59514 } := by
  simp only [begin, command, send_eq, write4bits_eq, expanderWrite, delayMicroseconds]
  by_cases h1 : 1 < d._rows <;> by_cases h2 : d._charsize = LCD_5x10DOTS <;>
    by_cases h3 : d._rows = 1 <;> simp [h1, h2, h3] <;> decide

/-- The backlight member only ever holds `LCD_BACKLIGHT` or `LCD_NOBACKLIGHT`: the
constructor and `begin` store `LCD_BACKLIGHT`, and `send`, `display`, `noDisplay` and
`setCursor` leave the member as it is. -/
theorem backlight_member_invariant (d : LiquidCrystal_I2C) :
    (∀ a c r s, (construct a c r s)._backlightval = LCD_BACKLIGHT) ∧
    (∀ w, (begin w d)._backlightval = LCD_BACKLIGHT) ∧
    (∀ v m, (send v m d)._backlightval = d._backlightval) ∧
    (display d)._backlightval = d._backlightval ∧
    (noDisplay d)._backlightval = d._backlightval ∧
    (∀ col row, ∀ d1 ∈ setCursor col row d, d1._backlightval = d._backlightval) := by
  refine ⟨fun _ _ _ _ => rfl, fun w => by simp [begin_eq], fun v m => by simp [send_eq],
    by simp [display, command, send_eq], by simp [noDisplay, command, send_eq], ?_⟩
  intro col row d1 h
  simp only [setCursor] at h
  split at h
  · simp at h
  · simp only [Option.mem_def, Option.some.injEq] at h
    subst h
    simp [command, send_eq]

/-! ### The claims -/

/-- C1: for every 8-bit character code `ch`, `write(ch)` is exactly one call of `send`
with the value `ch` and the mode `Rs = 0x01`, and it returns 1, whatever `send` does
and whatever the state is; with a `send` that records its calls, exactly the one call
`(ch, Rs)` is appended. -/
theorem write_sends_once {σ : Type} (sendFn : Nat → Nat → σ → σ) (ch : Nat) (self : σ)
    (hch : ch < 256) :
    write sendFn ch self = (sendFn ch Rs self, 1) ∧ Rs = 0x01 ∧
    ∀ calls, write recordSend ch calls = (calls ++ [(ch, 0x01)], 1) := by
  have h : uint8_t ch = ch := Nat.mod_eq_of_lt hch
  refine ⟨?_, rfl, ?_⟩
  · simp [write, h]
  · intro calls
    simp [write, recordSend, h, Rs]

/-- Witness for C1: `write('A')` sends `0x41` with mode `Rs` and returns 1. -/
theorem write_sends_once_witness :
    write recordSend 0x41 [] = (recordSend 0x41 Rs [], 1) ∧ Rs = 0x01 ∧
    ∀ calls, write recordSend 0x41 calls = (calls ++ [(0x41, 0x01)], 1) :=
  write_sends_once recordSend 0x41 [] (by decide)

/-- C2: for every 8-bit value `V`, every mode `M` in `{0, Rs}` and every driver whose
backlight member holds one of its two values, `send(V, M)` appends exactly four
single-byte transactions to the bus record, all to the address of the driver.  In
order, their upper nibbles are `V >> 4, V >> 4, V & 0x0F, V & 0x0F`, their Enable bits
(bit 2) are `1, 0, 1, 0`, and each carries `RS = M` in bit 0. -/
theorem send_four_transactions (V M : Nat) (d : LiquidCrystal_I2C) (hV : V < 256)
    (hM : M = 0 ∨ M = Rs)
    (hb : d._backlightval = LCD_BACKLIGHT ∨ d._backlightval = LCD_NOBACKLIGHT) :
    ∃ b1 b2 b3 b4 : Nat,
      (send V M d)._wire =
        d._wire ++ [⟨d._addr, b1⟩, ⟨d._addr, b2⟩, ⟨d._addr, b3⟩, ⟨d._addr, b4⟩] ∧
      (b1 < 256 ∧ b2 < 256 ∧ b3 < 256 ∧ b4 < 256) ∧
      (b1 >>> 4 = V >>> 4 ∧ b2 >>> 4 = V >>> 4 ∧ b3 >>> 4 = V &&& 0x0F ∧ b4 >>> 4 = V &&& 0x0F) ∧
      (b1.testBit 2 = true ∧ b2.testBit 2 = false ∧ b3.testBit 2 = true ∧ b4.testBit 2 = false) ∧
      (b1 &&& Rs = M ∧ b2 &&& Rs = M ∧ b3 &&& Rs = M ∧ b4 &&& Rs = M) ∧ Rs = 2 ^ 0 := by
  have hb' : d._backlightval ∈ [LCD_BACKLIGHT, LCD_NOBACKLIGHT] := by simpa using hb
  have hM' : M ∈ [0, Rs] := by simpa using hM
  have key := send_bytes_bits _ hb' _ hM' V hV
  obtain ⟨⟨x1, x2, x3, x4, _, _⟩, y1, y2, y3, y4, _, _⟩ := key _ (List.mem_cons_self _ _)
  obtain ⟨⟨z1, z2, z3, z4, _, _⟩, w1, w2, w3, w4, _, _⟩ :=
    key _ (List.mem_cons_of_mem _ (List.mem_cons_self _ _))
  refine ⟨_, _, _, _, ?_, ⟨x1, y1, z1, w1⟩, ⟨x2, y2, z2, w2⟩, ⟨x3, y3, z3, w3⟩,
    ⟨x4, y4, z4, w4⟩, rfl⟩
  rw [send_spec V M d hV hM hb]

/-- Witness for C2: sending the character `0x41` as data on a freshly constructed
driver at address `0x27`. -/
theorem send_four_transactions_witness :
    ∃ b1 b2 b3 b4 : Nat,
      (send 0x41 Rs (construct 0x27 16 2 LCD_5x8DOTS))._wire =
        (construct 0x27 16 2 LCD_5x8DOTS)._wire ++
          [⟨(construct 0x27 16 2 LCD_5x8DOTS)._addr, b1⟩,
           ⟨(construct 0x27 16 2 LCD_5x8DOTS)._addr, b2⟩,
           ⟨(construct 0x27 16 2 LCD_5x8DOTS)._addr, b3⟩,
           ⟨(construct 0x27 16 2 LCD_5x8DOTS)._addr, b4⟩] ∧
      (b1 < 256 ∧ b2 < 256 ∧ b3 < 256 ∧ b4 < 256) ∧
      (b1 >>> 4 = 0x41 >>> 4 ∧ b2 >>> 4 = 0x41 >>> 4 ∧
        b3 >>> 4 = 0x41 &&& 0x0F ∧ b4 >>> 4 = 0x41 &&& 0x0F) ∧
      (b1.testBit 2 = true ∧ b2.testBit 2 = false ∧ b3.testBit 2 = true ∧ b4.testBit 2 = false) ∧
      (b1 &&& Rs = Rs ∧ b2 &&& Rs = Rs ∧ b3 &&& Rs = Rs ∧ b4 &&& Rs = Rs) ∧ Rs = 2 ^ 0 :=
  send_four_transactions 0x41 Rs (construct 0x27 16 2 LCD_5x8DOTS) (by decide) (Or.inr rfl)
    (Or.inl rfl)

/-- C3: the wire byte format.  For every nibble `N` in `0..15`, every mode `M` in
`{0, Rs}` and every driver whose backlight member `b` is `LCD_BACKLIGHT` or
`LCD_NOBACKLIGHT`, writing the nibble records the two bytes `(N << 4) | b | M` with
`En` OR-ed in and with `En` masked out.  Each has bits 7..4 equal to `N`, bit 3 equal
to the backlight state, bit 2 equal to the Enable level (1, then 0), bit 1 (R/W) equal
to 0 and bit 0 equal to RS.  The bare control byte that carries only the backlight
also has R/W = 0 and bit 3 equal to the backlight state.  So every byte that a `send`
of an 8-bit value puts on the bus, and every byte that `begin` puts on the bus, has
R/W = 0 and bit 3 equal to the current backlight state. -/
theorem expander_byte_format (N M : Nat) (d : LiquidCrystal_I2C) (hN : N < 16)
    (hM : M = 0 ∨ M = Rs)
    (hb : d._backlightval = LCD_BACKLIGHT ∨ d._backlightval = LCD_NOBACKLIGHT) :
    (write4bits ((N <<< 4) ||| M) d)._wire =
        d._wire ++ [⟨d._addr, (N <<< 4) ||| d._backlightval ||| M ||| En⟩,
                    ⟨d._addr, ((N <<< 4) ||| d._backlightval ||| M) &&& (0xFF ^^^ En)⟩] ∧
    (((N <<< 4) ||| d._backlightval ||| M ||| En) >>> 4 = N ∧
      ((N <<< 4) ||| d._backlightval ||| M ||| En).testBit 3
        = decide (d._backlightval = LCD_BACKLIGHT) ∧
      ((N <<< 4) ||| d._backlightval ||| M ||| En).testBit 2 = true ∧
      ((N <<< 4) ||| d._backlightval ||| M ||| En).testBit 1 = false ∧
      ((N <<< 4) ||| d._backlightval ||| M ||| En).testBit 0 = decide (M = Rs)) ∧
    ((((N <<< 4) ||| d._backlightval ||| M) &&& (0xFF ^^^ En)) >>> 4 = N ∧
      (((N <<< 4) ||| d._backlightval ||| M) &&& (0xFF ^^^ En)).testBit 3
        = decide (d._backlightval = LCD_BACKLIGHT) ∧
      (((N <<< 4) ||| d._backlightval ||| M) &&& (0xFF ^^^ En)).testBit 2 = false ∧
      (((N <<< 4) ||| d._backlightval ||| M) &&& (0xFF ^^^ En)).testBit 1 = false ∧
      (((N <<< 4) ||| d._backlightval ||| M) &&& (0xFF ^^^ En)).testBit 0 = decide (M = Rs)) ∧
    ((expanderWrite d._backlightval d)._wire = d._wire ++ [⟨d._addr, d._backlightval⟩] ∧
      d._backlightval.testBit 3 = decide (d._backlightval = LCD_BACKLIGHT) ∧
      d._backlightval.testBit 1 = false) ∧
    (Rs = 2 ^ 0 ∧ Rw = 2 ^ 1 ∧ En = 2 ^ 2 ∧ LCD_BACKLIGHT = 2 ^ 3 ∧ LCD_NOBACKLIGHT = 0) ∧
    (∀ V < 256, ∀ t ∈ (send V M d)._wire.drop d._wire.length,
      t.byte &&& Rw = 0 ∧ t.byte &&& LCD_BACKLIGHT = d._backlightval) ∧
    (∀ (w : List Transaction) (d0 : LiquidCrystal_I2C),
      ∀ t ∈ (begin w d0)._wire.drop w.length,
        t.byte &&& Rw = 0 ∧ t.byte &&& LCD_BACKLIGHT = (begin w d0)._backlightval) := by
  have hb' : d._backlightval ∈ [LCD_BACKLIGHT, LCD_NOBACKLIGHT] := by simpa using hb
  have hM' : M ∈ [0, Rs] := by simpa using hM
  obtain ⟨⟨e1, e2⟩, f1, f2, g1, g2, g3⟩ := nibble_bytes_bits _ hb' _ hM' N hN
  refine ⟨?_, f1, f2, ⟨?_, g2, g3⟩, by decide, ?_, ?_⟩
  · rw [write4bits_eq, e1, e2]
  · simp [expanderWrite, g1]
  · intro V hV t ht
    have key := send_bytes_bits _ hb' _ hM' V hV
    obtain ⟨⟨-, -, -, -, x5, x6⟩, -, -, -, -, y5, y6⟩ := key _ (List.mem_cons_self _ _)
    obtain ⟨⟨-, -, -, -, z5, z6⟩, -, -, -, -, w5, w6⟩ :=
      key _ (List.mem_cons_of_mem _ (List.mem_cons_self _ _))
    rw [send_spec V M d hV hM hb] at ht
    simp only [List.drop_left, List.mem_cons, List.mem_singleton, List.not_mem_nil,
      or_false] at ht
    rcases ht with rfl | rfl | rfl | rfl
    · exact ⟨x5, x6⟩
    · exact ⟨y5, y6⟩
    · exact ⟨z5, z6⟩
    · exact ⟨w5, w6⟩
  · intro w d0
    simp only [begin_eq, List.drop_left]
    by_cases h1 : 1 < d0._rows <;> by_cases h2 : d0._charsize = LCD_5x10DOTS <;>
      by_cases h3 : d0._rows = 1 <;> simp [h1, h2, h3] <;> decide

/-- Witness for C3: the nibble `0x3` of the wake sequence, written as a command on a
freshly constructed driver (backlight on): the bytes `0x3C` and `0x38`. -/
theorem expander_byte_format_witness :
    (write4bits ((0x3 <<< 4) ||| 0) (construct 0x27 16 2 LCD_5x8DOTS))._wire =
      [⟨0x27, 0x3C⟩, ⟨0x27, 0x38⟩] :=
  (expander_byte_format 0x3 0 (construct 0x27 16 2 LCD_5x8DOTS) (by decide) (Or.inl rfl)
    (Or.inl rfl)).1

/-- C4: the eight command opcode constants have the values of the opcode table. -/
theorem opcode_values :
    LCD_CLEARDISPLAY = 0x01 ∧ LCD_RETURNHOME = 0x02 ∧ LCD_ENTRYMODESET = 0x04 ∧
    LCD_DISPLAYCONTROL = 0x08 ∧ LCD_CURSORSHIFT = 0x10 ∧ LCD_FUNCTIONSET = 0x20 ∧
    LCD_SETCGRAMADDR = 0x40 ∧ LCD_SETDDRAMADDR = 0x80 := by
  decide

/-- C5: the flag constants sit at the bit positions of the opcode table.  Entry mode:
left-to-right is bit 1 (right-to-left is that bit clear), autoscroll is bit 0.  Display
control: display-on is bit 2, cursor-on bit 1, blink-on bit 0.  Cursor shift:
display-move is bit 3 (cursor-move is that bit clear), move-right is bit 2 (move-left
is that bit clear).  Every off / no counterpart is 0. -/
theorem flag_bit_positions :
    (LCD_ENTRYLEFT = 2 ^ 1 ∧ LCD_ENTRYRIGHT = 0 ∧
      LCD_ENTRYSHIFTINCREMENT = 2 ^ 0 ∧ LCD_ENTRYSHIFTDECREMENT = 0) ∧
    (LCD_DISPLAYON = 2 ^ 2 ∧ LCD_DISPLAYOFF = 0 ∧ LCD_CURSORON = 2 ^ 1 ∧ LCD_CURSOROFF = 0 ∧
      LCD_BLINKON = 2 ^ 0 ∧ LCD_BLINKOFF = 0) ∧
    (LCD_DISPLAYMOVE = 2 ^ 3 ∧ LCD_CURSORMOVE = 0 ∧ LCD_MOVERIGHT = 2 ^ 2 ∧ LCD_MOVELEFT = 0) := by
  decide

/-- C6, as stated, fails in two places.  On a five-row driver (`rows >= 1`), after
`begin`, the clamped row `min(4, rows - 1) = 4` lies outside the four-entry table of row
base addresses, so `setCursor(0, 4)` has no value to send.  And on a 16x2 display,
`setCursor(200, 1)` does not send `SET_DDRAM_ADDR | (0x40 + 200) = 0x188`, which is no
8-bit value: the bus carries the payload `0x88` (bytes `0x8C 0x88 0x8C 0x88`). -/
theorem setCursor_counterexamples :
    (1 ≤ (begin [] (construct 0x27 20 5 LCD_5x8DOTS))._rows ∧
      row_base[min 4 ((begin [] (construct 0x27 20 5 LCD_5x8DOTS))._rows - 1)]? = none ∧
      setCursor 0 4 (begin [] (construct 0x27 20 5 LCD_5x8DOTS)) = none) ∧
    (1 ≤ (begin [] (construct 0x27 16 2 LCD_5x8DOTS))._rows ∧
      row_base[min 1 ((begin [] (construct 0x27 16 2 LCD_5x8DOTS))._rows - 1)]? = some 0x40 ∧
      LCD_SETDDRAMADDR ||| (0x40 + 200) = 0x188 ∧
      setCursor 200 1 (begin [] (construct 0x27 16 2 LCD_5x8DOTS)) =
        some (send 0x88 0 (begin [] (construct 0x27 16 2 LCD_5x8DOTS))) ∧
      (setCursor 200 1 (begin [] (construct 0x27 16 2 LCD_5x8DOTS))).map (fun s => s._wire) =
        some ((begin [] (construct 0x27 16 2 LCD_5x8DOTS))._wire ++
          [⟨0x27, 0x8C⟩, ⟨0x27, 0x88⟩, ⟨0x27, 0x8C⟩, ⟨0x27, 0x88⟩])) := by
  decide

/-- C6, amended: for every 8-bit `col` and `row` and every driver with `rows >= 1` whose
clamped row `min(row, rows - 1)` is at most 3 (inside the four-entry table),
`setCursor(col, row)` hands `SET_DDRAM_ADDR | (row_base[min(row, rows-1)] + col)`, with
`row_base = {0x00, 0x40, 0x14, 0x54}`, to `command`, which sends its low 8 bits as a
command (RS = 0); it changes none of the shadow registers or the backlight, and a row
`>= rows` acts as the last row.  In particular, after `begin` on a 16x2 display,
`setCursor(3, 1)` sends `0xC3` (bytes `0xCC 0xC8 0x3C 0x38` on the bus), and
`setCursor(3, 7)` does the same. -/
theorem setCursor_sends (col row : Nat) (d : LiquidCrystal_I2C) (hcol : col < 256)
    (hrow : row < 256) (hrows : 1 ≤ d._rows) (hidx : min row (d._rows - 1) ≤ 3) :
    (∃ (base : Nat) (d1 : LiquidCrystal_I2C),
      row_base = [0x00, 0x40, 0x14, 0x54] ∧
      row_base[min row (d._rows - 1)]? = some base ∧
      setCursor col row d = some d1 ∧
      d1 = command send (LCD_SETDDRAMADDR ||| (base + col)) d ∧
      d1 = send ((LCD_SETDDRAMADDR ||| (base + col)) % 256) 0 d ∧
      d1._displayfunction = d._displayfunction ∧ d1._displaycontrol = d._displaycontrol ∧
      d1._displaymode = d._displaymode ∧ d1._backlightval = d._backlightval ∧
      (d._rows ≤ row → setCursor col row d = setCursor col (d._rows - 1) d)) ∧
    (LCD_SETDDRAMADDR ||| (0x40 + 3) = 0xC3 ∧
      setCursor 3 1 (begin [] (construct 0x27 16 2 LCD_5x8DOTS)) =
        some (command send 0xC3 (begin [] (construct 0x27 16 2 LCD_5x8DOTS))) ∧
      (setCursor 3 1 (begin [] (construct 0x27 16 2 LCD_5x8DOTS))).map (fun s => s._wire) =
        some ((begin [] (construct 0x27 16 2 LCD_5x8DOTS))._wire ++
          [⟨0x27, 0xCC⟩, ⟨0x27, 0xC8⟩, ⟨0x27, 0x3C⟩, ⟨0x27, 0x38⟩]) ∧
      setCursor 3 7 (begin [] (construct 0x27 16 2 LCD_5x8DOTS)) =
        setCursor 3 1 (begin [] (construct 0x27 16 2 LCD_5x8DOTS))) := by
  have hc : uint8_t col = col := Nat.mod_eq_of_lt hcol
  have hr : uint8_t row = row := Nat.mod_eq_of_lt hrow
  have hlt : min row (d._rows - 1) < row_base.length := by
    have : row_base.length = 4 := rfl
    omega
  refine ⟨⟨row_base[min row (d._rows - 1)], _, rfl, List.getElem?_eq_getElem hlt, ?_, rfl,
    rfl, ?_, ?_, ?_, ?_, ?_⟩, by decide, ?_, ?_, ?_⟩
  · simp only [setCursor, hc, hr, List.getElem?_eq_getElem hlt]
  · simp [command, send_eq]
  · simp [command, send_eq]
  · simp [command, send_eq]
  · simp [command, send_eq]
  · intro hge
    have h1 : min row (d._rows - 1) = d._rows - 1 := by omega
    have h2 : uint8_t (d._rows - 1) = d._rows - 1 := Nat.mod_eq_of_lt (by omega)
    simp only [setCursor, hr, h1, h2, Nat.min_self]
  · decide
  · decide
  · decide

/-- Witness for C6: column 3 of row 7 on a 16x2 display. -/
theorem setCursor_sends_witness :
    setCursor 3 7 (construct 0x27 16 2 LCD_5x8DOTS) =
      setCursor 3 ((construct 0x27 16 2 LCD_5x8DOTS)._rows - 1)
        (construct 0x27 16 2 LCD_5x8DOTS) := by
  obtain ⟨⟨base, d1, -, -, -, -, -, -, -, -, -, h⟩, -⟩ :=
    setCursor_sends 3 7 (construct 0x27 16 2 LCD_5x8DOTS) (by decide) (by decide) (by decide)
      (by decide)
  exact h (by decide)

/-- C7: for every driver (every `rows` and `charsize`) and every bus handed in, `begin`
sets `displayfunction` to `LCD_4BITMODE`, plus `LCD_2LINE` iff `rows > 1`, plus
`LCD_5x10DOTS` iff `charsize == LCD_5x10DOTS` and `rows == 1`.  After the backlight
byte and the four wake nibbles it sends `v = FUNCTION_SET | displayfunction` as a
command (high nibble then low nibble, each with Enable high then low, RS = 0, backlight
on), followed by display control `0x0C`, clear `0x01`, entry mode `0x06` and home `0x02`.
Hence bit 4 (8-bit mode) of `v` is never set, the 2-line and 5x10 flags are never both
set, and for a 16x2, 5x8 display `v = 0x28`. -/
theorem begin_function_set (w : List Transaction) (d : LiquidCrystal_I2C) :
    ∃ df v : Nat,
      df = (LCD_4BITMODE ||| (if d._rows > 1 then LCD_2LINE else 0) |||
        (if d._charsize = LCD_5x10DOTS ∧ d._rows = 1 then LCD_5x10DOTS else 0)) ∧
      v = (LCD_FUNCTIONSET ||| df) ∧
      (begin w d)._displayfunction = df ∧
      (begin w d)._wire = w ++
        [⟨d._addr, 0x08⟩,
         ⟨d._addr, 0x3C⟩, ⟨d._addr, 0x38⟩, ⟨d._addr, 0x3C⟩, ⟨d._addr, 0x38⟩,
         ⟨d._addr, 0x3C⟩, ⟨d._addr, 0x38⟩, ⟨d._addr, 0x2C⟩, ⟨d._addr, 0x28⟩,
         ⟨d._addr, ((v >>> 4) <<< 4) ||| LCD_BACKLIGHT ||| En⟩,
         ⟨d._addr, ((v >>> 4) <<< 4) ||| LCD_BACKLIGHT⟩,
         ⟨d._addr, ((v &&& 0x0F) <<< 4) ||| LCD_BACKLIGHT ||| En⟩,
         ⟨d._addr, ((v &&& 0x0F) <<< 4) ||| LCD_BACKLIGHT⟩,
         ⟨d._addr, 0x0C⟩, ⟨d._addr, 0x08⟩, ⟨d._addr, 0xCC⟩, ⟨d._addr, 0xC8⟩,
         ⟨d._addr, 0x0C⟩, ⟨d._addr, 0x08⟩, ⟨d._addr, 0x1C⟩, ⟨d._addr, 0x18⟩,
         ⟨d._addr, 0x0C⟩, ⟨d._addr, 0x08⟩, ⟨d._addr, 0x6C⟩, ⟨d._addr, 0x68⟩,
         ⟨d._addr, 0x0C⟩, ⟨d._addr, 0x08⟩, ⟨d._addr, 0x2C⟩, ⟨d._addr, 0x28⟩] ∧
      (df &&& LCD_2LINE = LCD_2LINE ↔ d._rows > 1) ∧
      (df &&& LCD_5x10DOTS = LCD_5x10DOTS ↔ (d._charsize = LCD_5x10DOTS ∧ d._rows = 1)) ∧
      df &&& LCD_8BITMODE = 0 ∧ v.testBit 4 = false ∧ LCD_8BITMODE = 2 ^ 4 ∧
      ¬ (df &&& LCD_2LINE = LCD_2LINE ∧ df &&& LCD_5x10DOTS = LCD_5x10DOTS) ∧
      (begin [] (construct 0x27 16 2 LCD_5x8DOTS))._displayfunction = LCD_2LINE ∧
      LCD_FUNCTIONSET ||| (begin [] (construct 0x27 16 2 LCD_5x8DOTS))._displayfunction = 0x28 := by
  refine ⟨_, _, rfl, rfl, ?_, ?_, ?_, ?_, ?_, ?_, by decide, ?_, by decide, by decide⟩
  · by_cases h1 : 1 < d._rows <;> by_cases h2 : d._charsize = LCD_5x10DOTS <;>
      by_cases h3 : d._rows = 1 <;> simp [begin_eq, h1, h2, h3] <;> decide
  · by_cases h1 : 1 < d._rows <;> by_cases h2 : d._charsize = LCD_5x10DOTS <;>
      by_cases h3 : d._rows = 1 <;> simp [begin_eq, h1, h2, h3] <;> decide
  all_goals
    by_cases h1 : 1 < d._rows <;> by_cases h2 : d._charsize = LCD_5x10DOTS <;>
      by_cases h3 : d._rows = 1 <;> simp [h1, h2, h3] <;> decide

/-- C8: for every 8-bit `displaycontrol` shadow value, `display()` sets the display-on
bit (bit 2) and `noDisplay()` clears it.  Each leaves the cursor bit (bit 1), the blink
bit (bit 0) and the backlight as they were, and each re-sends
`DISPLAY_CONTROL | displaycontrol` (the new shadow value) as a command.  From the state
`begin` leaves (display on, cursor off, blink off), the sequence
`display(); noDisplay(); display();` records the payloads `0x0C`, `0x08`, `0x0C`: for
each, the high nibble with Enable high then low, then the low nibble likewise, with
RS = 0 and the backlight on. -/
theorem display_noDisplay (d : LiquidCrystal_I2C) (hdc : d._displaycontrol < 256) :
    (∃ dc v : Nat,
      dc = (d._displaycontrol ||| LCD_DISPLAYON) ∧ v = (LCD_DISPLAYCONTROL ||| dc) ∧
      display d = command send v { d with _displaycontrol := dc } ∧
      (display d)._displaycontrol = dc ∧
      dc.testBit 2 = true ∧ dc.testBit 1 = d._displaycontrol.testBit 1 ∧
      dc.testBit 0 = d._displaycontrol.testBit 0 ∧
      (display d)._backlightval = d._backlightval) ∧
    (∃ dc v : Nat,
      dc = (d._displaycontrol &&& (0xFF ^^^ LCD_DISPLAYON)) ∧ v = (LCD_DISPLAYCONTROL ||| dc) ∧
      noDisplay d = command send v { d with _displaycontrol := dc } ∧
      (noDisplay d)._displaycontrol = dc ∧
      dc.testBit 2 = false ∧ dc.testBit 1 = d._displaycontrol.testBit 1 ∧
      dc.testBit 0 = d._displaycontrol.testBit 0 ∧
      (noDisplay d)._backlightval = d._backlightval) ∧
    (∀ (w : List Transaction) (d0 : LiquidCrystal_I2C),
      (begin w d0)._displaycontrol = (LCD_DISPLAYON ||| LCD_CURSOROFF ||| LCD_BLINKOFF) ∧
      display (begin w d0) = command send 0x0C (begin w d0) ∧
      noDisplay (display (begin w d0)) =
        command send 0x08 { display (begin w d0) with _displaycontrol := LCD_DISPLAYOFF } ∧
      display (noDisplay (display (begin w d0))) =
        command send 0x0C
          { noDisplay (display (begin w d0)) with _displaycontrol := LCD_DISPLAYON } ∧
      (display (noDisplay (display (begin w d0))))._wire =
        (begin w d0)._wire ++
          [⟨d0._addr, 0x0C⟩, ⟨d0._addr, 0x08⟩, ⟨d0._addr, 0xCC⟩, ⟨d0._addr, 0xC8⟩,
           ⟨d0._addr, 0x0C⟩, ⟨d0._addr, 0x08⟩, ⟨d0._addr, 0x8C⟩, ⟨d0._addr, 0x88⟩,
           ⟨d0._addr, 0x0C⟩, ⟨d0._addr, 0x08⟩, ⟨d0._addr, 0xCC⟩, ⟨d0._addr, 0xC8⟩]) := by
  have hu : uint8_t d._displaycontrol = d._displaycontrol := Nat.mod_eq_of_lt hdc
  have h4 : Nat.testBit 4 2 = true ∧ Nat.testBit 4 1 = false ∧ Nat.testBit 4 0 = false := by
    decide
  have h251 : Nat.testBit 251 2 = false ∧ Nat.testBit 251 1 = true ∧
      Nat.testBit 251 0 = true := by
    decide
  refine ⟨⟨_, _, rfl, rfl, ?_, ?_, ?_, ?_, ?_, ?_⟩, ⟨_, _, rfl, rfl, ?_, ?_, ?_, ?_, ?_, ?_⟩, ?_⟩
  · simp only [display, hu]
  · simp [display, command, send_eq, hu]
  · rw [Nat.testBit_or]
    simp [LCD_DISPLAYON, h4]
  · rw [Nat.testBit_or]
    simp [LCD_DISPLAYON, h4]
  · rw [Nat.testBit_or]
    simp [LCD_DISPLAYON, h4]
  · simp [display, command, send_eq]
  · simp only [noDisplay, hu]
  · simp [noDisplay, command, send_eq, hu]
  · rw [Nat.testBit_and]
    simp [LCD_DISPLAYON, h251]
  · rw [Nat.testBit_and]
    simp [LCD_DISPLAYON, h251]
  · rw [Nat.testBit_and]
    simp [LCD_DISPLAYON, h251]
  · simp [noDisplay, command, send_eq]
  · intro w d0
    simp only [begin_eq, display, noDisplay, command, send_eq]
    refine ⟨by decide, ?_, ?_, ?_, ?_⟩ <;> simp <;> decide

/-- Witness for C8: the shadow value `LCD_CURSORON | LCD_BLINKON` on a freshly constructed
16x2 driver. -/
theorem display_noDisplay_witness :
    (display { construct 0x27 16 2 LCD_5x8DOTS with
        _displaycontrol := LCD_CURSORON ||| LCD_BLINKON })._displaycontrol = 0x07 ∧
    (noDisplay { construct 0x27 16 2 LCD_5x8DOTS with
        _displaycontrol := 0x07 })._displaycontrol = LCD_CURSORON ||| LCD_BLINKON := by
  obtain ⟨⟨dc, v, h1, -, -, h2, -⟩, -, -⟩ := display_noDisplay
    { construct 0x27 16 2 LCD_5x8DOTS with _displaycontrol := LCD_CURSORON ||| LCD_BLINKON }
    (by decide)
  obtain ⟨-, ⟨dc', v', h1', -, -, h2', -⟩, -⟩ := display_noDisplay
    { construct 0x27 16 2 LCD_5x8DOTS with _displaycontrol := 0x07 } (by decide)
  exact ⟨h2.trans h1, h2'.trans h1'⟩

/-- C9: for every 8-bit value, `command(value)` is exactly one call of `send` with that
value and mode 0; `write(value)` is the same call with mode `Rs` instead; and neither
mode (0 or `Rs`) has the Enable, R/W or backlight bit set. -/
theorem command_sends_once {σ : Type} (sendFn : Nat → Nat → σ → σ) (value : Nat) (self : σ)
    (hv : value < 256) :
    command sendFn value self = sendFn value 0 self ∧
    (∀ calls, command recordSend value calls = calls ++ [(value, 0)]) ∧
    (write sendFn value self).1 = sendFn value Rs self ∧
    (∀ calls, (write recordSend value calls).1 = calls ++ [(value, Rs)]) ∧
    Rs &&& En = 0 ∧ Rs &&& Rw = 0 ∧ Rs &&& LCD_BACKLIGHT = 0 ∧
    0 &&& En = 0 ∧ 0 &&& Rw = 0 ∧ 0 &&& LCD_BACKLIGHT = 0 := by
  have h : uint8_t value = value := Nat.mod_eq_of_lt hv
  refine ⟨?_, ?_, ?_, ?_, by decide, by decide, by decide, by decide, by decide, by decide⟩
  · simp [command, h]
  · intro calls
    simp [command, recordSend, h]
  · simp [write, h]
  · intro calls
    simp [write, recordSend, h]

/-- Witness for C9 at the value `0xC3`. -/
theorem command_sends_once_witness :
    command recordSend 0xC3 [] = [(0xC3, 0)] ∧ (write recordSend 0xC3 []).1 = [(0xC3, Rs)] := by
  have h := command_sends_once recordSend 0xC3 [] (by decide)
  exact ⟨h.2.1 [], h.2.2.2.1 []⟩

/-- C10: command bytes are unambiguous.  The eight opcodes are the eight distinct
single bits `2^0 .. 2^7`; and for each of ENTRY_MODE_SET, DISPLAY_CONTROL, CURSOR_SHIFT
and FUNCTION_SET, with opcode bit `2^k`, every OR-combination `f` of the flag constants
of that command is strictly below the opcode bit, the highest set bit of `opcode | f`
is bit `k` (that is, `2^k ≤ opcode | f < 2^(k+1)`), and `(opcode | f) & (opcode - 1)`
is `f` again. -/
theorem command_bytes_unambiguous :
    commands = (List.range 8).map (fun k => 2 ^ k) ∧ commands.Nodup ∧
    ∀ cf ∈ flaggedCommands, ∃ k < 8, cf.1 = 2 ^ k ∧
      ∀ f ∈ flagCombinations cf.2,
        f < cf.1 ∧ (2 ^ k ≤ cf.1 ||| f ∧ cf.1 ||| f < 2 ^ (k + 1)) ∧
        (cf.1 ||| f) &&& (cf.1 - 1) = f := by
  decide

end LiquidCrystal_I2C
